import Mathlib

/-!
Shallow embedding of `src/core/dependencies/LayoutProvider.ts` from the
recyclerlistview repository: the layout-assignment contract consisting of
`LayoutProvider`, its grid specialization `GridLayoutProvider`, and the
`Dimension` value type.

Modelling conventions:
* TypeScript `number` is embedded as `Rat` (exact arithmetic; the source
  compares dimensions with `!==`, i.e. exact equality).
* `string | number` type tokens become the inductive `LayoutType`.
* Mutable instance fields (`_tempDim`, `_lastLayoutManager`) become an
  explicit `LayoutProviderState` threaded through the methods that read or
  write them.
* Callbacks that mutate a `Dimension` object in place are embedded as
  functions from the buffer's current content to its new content.
* The collaborating classes (`WrapGridLayoutManager`, `GridLayoutManager`,
  `Layout`, `CustomError`) live in repository files that are not among the
  sources; they are modelled from the spec where marked.
-/

/-- `Dimension` from the source: `{height: number, width: number}`. -/
structure Dimension where
  height : Rat
  width : Rat
deriving DecidableEq, Repr

/-- A `string | number` view-type token. -/
inductive LayoutType where
  | str (s : String)
  | num (n : Rat)
deriving DecidableEq, Repr

/-- Modelled from the spec: `Layout` (from `core/layoutmanager/LayoutManager`,
not among the sources) is an entry of the cached per-index layouts used to
warm-start a new layout manager; it carries a computed dimension. Only used
here as opaque cached data. -/
structure Layout where
  dim : Dimension
deriving DecidableEq, Repr

/-- Modelled from the spec: `WrapGridLayoutManager` (from
`core/layoutmanager/LayoutManager`, not among the sources) is the wrap/flow
layout manager created by `LayoutProvider.newLayoutManager`. The spec needs
only that it receives the render window, orientation and cached layouts at
construction, and that `setMaxBounds` records a max-bounds hint pushed by
discrepancy checks. -/
structure WrapGridLayoutManager where
  renderWindowSize : Dimension
  isHorizontal : Option Bool
  cachedLayouts : Option (List Layout)
  maxBoundsHint : Option Dimension

/-- Modelled from the spec: `setMaxBounds` records the freshly recomputed
dimension as the manager's max-bounds hint. -/
def WrapGridLayoutManager.setMaxBounds (m : WrapGridLayoutManager) (d : Dimension) :
    WrapGridLayoutManager :=
  { m with maxBoundsHint := some d }

/-- Modelled from the spec: `GridLayoutManager` (from
`core/layoutmanager/LayoutManager`, not among the sources) is constructed by
`GridLayoutProvider.newLayoutManager` with the span-lookup callback and the
max-column-span value evaluated at construction time. -/
structure GridLayoutManager where
  renderWindowSize : Dimension
  getColumnSpanForIndex : Rat → Rat
  maxColumnSpan : Rat
  cachedLayouts : Option (List Layout)

/-- Modelled from the spec: the `LayoutManager` base type; a manager handle is
either a wrap/flow manager or a grid manager. -/
inductive LayoutManager where
  | wrap (m : WrapGridLayoutManager)
  | grid (m : GridLayoutManager)

/-- Modelled from the spec: `CustomError` (from `core/exceptions/CustomError`,
not among the sources) carries a human-readable `message` and a
machine-checkable `type` category, exactly the two fields the source passes
at the throw site. -/
structure CustomError where
  message : String
  type : String
deriving DecidableEq, Repr

/-- The immutable part of a `LayoutProvider` instance: the two
constructor-injected callbacks (`_getLayoutTypeForIndex`, `_setLayoutForType`).
The callback that "sets the dimension values on the given dimension object"
is embedded as a function from the buffer's current content to its new
content. -/
structure LayoutProvider where
  _getLayoutTypeForIndex : Rat → LayoutType
  _setLayoutForType : LayoutType → Dimension → Rat → Dimension

/-- The mutable fields of a `LayoutProvider` instance: the scratch buffer
`_tempDim` and the weak reference `_lastLayoutManager`. -/
structure LayoutProviderState where
  _tempDim : Dimension
  _lastLayoutManager : Option WrapGridLayoutManager

/-- The constructor: `this._tempDim = { height: 0, width: 0 }`, and
`_lastLayoutManager` starts absent (`undefined`). -/
def LayoutProvider.initialState : LayoutProviderState :=
  { _tempDim := { height := 0, width := 0 }, _lastLayoutManager := none }

/-- `getLayoutTypeForIndex(index)`: `return this._getLayoutTypeForIndex(index)`. -/
def LayoutProvider.getLayoutTypeForIndex (p : LayoutProvider) (index : Rat) : LayoutType :=
  p._getLayoutTypeForIndex index

/-- `setComputedLayout(type, dimension, index)`:
`return this._setLayoutForType(type, dimension, index)` — the callback writes
into the passed dimension buffer; here it returns the buffer's new content. -/
def LayoutProvider.setComputedLayout (p : LayoutProvider) (type : LayoutType)
    (dimension : Dimension) (index : Rat) : Dimension :=
  p._setLayoutForType type dimension index

/-- `checkDimensionDiscrepancy(dimension, type, index)`:
recomputes the layout into `_tempDim` via `setComputedLayout`, propagates the
result to `_lastLayoutManager.setMaxBounds` when that reference is present,
and returns whether the supplied dimension differs from the recomputed one in
height or width (exact inequality). Returns the boolean together with the
updated mutable state. -/
def LayoutProvider.checkDimensionDiscrepancy (p : LayoutProvider)
    (s : LayoutProviderState) (dimension : Dimension) (type : LayoutType)
    (index : Rat) : Bool × LayoutProviderState :=
  let dimension1 := dimension
  let tempDim := p.setComputedLayout type s._tempDim index
  let dimension2 := tempDim
  let lastLayoutManager :=
    match s._lastLayoutManager with
    | some m => some (m.setMaxBounds dimension2)
    | none => none
  (decide (dimension1.height ≠ dimension2.height) ||
      decide (dimension1.width ≠ dimension2.width),
    { _tempDim := tempDim, _lastLayoutManager := lastLayoutManager })

/-- `newLayoutManager(renderWindowSize, isHorizontal?, cachedLayouts?)` on the
base provider: constructs a `WrapGridLayoutManager` and records it as
`_lastLayoutManager`. -/
def LayoutProvider.newLayoutManager (s : LayoutProviderState)
    (renderWindowSize : Dimension) (isHorizontal : Option Bool)
    (cachedLayouts : Option (List Layout)) : LayoutManager × LayoutProviderState :=
  let m : WrapGridLayoutManager :=
    { renderWindowSize := renderWindowSize, isHorizontal := isHorizontal,
      cachedLayouts := cachedLayouts, maxBoundsHint := none }
  (LayoutManager.wrap m, { s with _lastLayoutManager := some m })

/-- The immutable part of a `GridLayoutProvider` instance: the classifier
passed through to the base, and the three grid callbacks. The max-span
callback reads caller-owned mutable configuration, modelled as a function of
an explicit environment `σ` sampled at each call. The base `_setLayoutForType`
slot is filled by the constructor with the closure
`(type, dim, index) => this.setComputedLayout(type, dim, index)`; see
`GridLayoutProvider.setComputedLayoutFuel` for its embedding. -/
structure GridLayoutProvider (σ : Type) where
  _getLayoutTypeForIndex : Rat → LayoutType
  _setHeightForIndex : Rat → Rat → Rat
  _getColumnSpanForIndex : Rat → Rat
  _setMaxColumnSpan : σ → Rat

/-- `GridLayoutProvider.setComputedLayout`, embedded with explicit call-depth
fuel. The method is inherited from `LayoutProvider`, whose body invokes the
stored `_setLayoutForType` callback; on a `GridLayoutProvider` that callback
is the constructor closure `(type, dim, index) => this.setComputedLayout(type,
dim, index)`, which re-enters `setComputedLayout` with the identical
arguments. Each unit of fuel is one stack frame; `none` means the call did
not complete within that depth. -/
def GridLayoutProvider.setComputedLayoutFuel :
    Nat → LayoutType → Dimension → Rat → Option Dimension
  | 0, _, _, _ => none
  | Nat.succ n, type, dimension, index =>
      GridLayoutProvider.setComputedLayoutFuel n type dimension index

/-- `GridLayoutProvider.newLayoutManager(renderWindowSize, isHorizontal?,
cachedLayouts?)`: throws a `CustomError` with type `"NotSupportedException"`
when `isHorizontal` is truthy, otherwise constructs a `GridLayoutManager`
passing the span callback and `this._setMaxColumnSpan()` evaluated now (on the
environment `env` current at the call). The method never touches the mutable
provider state, which is returned unchanged on both paths. -/
def GridLayoutProvider.newLayoutManager {σ : Type} (p : GridLayoutProvider σ)
    (env : σ) (s : LayoutProviderState) (renderWindowSize : Dimension)
    (isHorizontal : Option Bool) (cachedLayouts : Option (List Layout)) :
    Except CustomError LayoutManager × LayoutProviderState :=
  match isHorizontal with
  | some true =>
      (Except.error
        { message := "Horizontal support not available for Grid Layouts",
          type := "NotSupportedException" }, s)
  | _ =>
      (Except.ok (LayoutManager.grid
        { renderWindowSize := renderWindowSize,
          getColumnSpanForIndex := p._getColumnSpanForIndex,
          maxColumnSpan := p._setMaxColumnSpan env,
          cachedLayouts := cachedLayouts }), s)

/-- `setMaxColumnSpan()`: `return this._setMaxColumnSpan()`. -/
def GridLayoutProvider.setMaxColumnSpan {σ : Type} (p : GridLayoutProvider σ)
    (env : σ) : Rat :=
  p._setMaxColumnSpan env

/-- `getColumnSpanForIndex(index)`: `return this._getColumnSpanForIndex(index)`. -/
def GridLayoutProvider.getColumnSpanForIndex {σ : Type} (p : GridLayoutProvider σ)
    (index : Rat) : Rat :=
  p._getColumnSpanForIndex index

/-- `setHeightForIndex(height, index)`: `return this._setHeightForIndex(height, index)`. -/
def GridLayoutProvider.setHeightForIndex {σ : Type} (p : GridLayoutProvider σ)
    (height : Rat) (index : Rat) : Rat :=
  p._setHeightForIndex height index

/-!
Heap-cell model of `checkDimensionDiscrepancy`, used to state the frame
property on the caller-supplied `dimension` object. In JavaScript both the
caller's `dimension` and the provider's `_tempDim` are references to mutable
objects; here a heap maps cell addresses (`Nat`) to `Dimension` contents, the
caller's argument is an address, and `_tempDim` is the address stored in the
provider state. The injected callback writes into whichever cell it is handed
— the source hands it `this._tempDim` only.
-/

/-- A heap of `Dimension` objects addressed by `Nat`. -/
def DimHeap : Type := Nat → Dimension

/-- Overwrite one cell of a heap. -/
def DimHeap.write (h : DimHeap) (addr : Nat) (d : Dimension) : DimHeap :=
  fun x => if x = addr then d else h x

/-- `setComputedLayout` on the heap model: the injected callback mutates the
dimension object at the address it is handed, replacing its content with the
callback's output on the current content. -/
def LayoutProvider.setComputedLayoutH (p : LayoutProvider) (type : LayoutType)
    (h : DimHeap) (addr : Nat) (index : Rat) : DimHeap :=
  DimHeap.write h addr (p._setLayoutForType type (h addr) index)

/-- Provider state in the heap model: `_tempDim` is the address of the scratch
buffer object allocated by the constructor. -/
structure LayoutProviderStateH where
  _tempDimAddr : Nat
  _lastLayoutManager : Option WrapGridLayoutManager

/-- `checkDimensionDiscrepancy` on the heap model: `dimension` is the address
of the caller's object; the recomputation is directed at `this._tempDim`'s
address (never at the caller's), exactly as in the source, and the comparison
reads both cells afterwards. Returns the boolean, the updated heap, and the
updated manager reference. -/
def LayoutProvider.checkDimensionDiscrepancyH (p : LayoutProvider)
    (s : LayoutProviderStateH) (h : DimHeap) (dimension : Nat)
    (type : LayoutType) (index : Rat) :
    Bool × DimHeap × Option WrapGridLayoutManager :=
  let dimension1 := dimension
  let h1 := p.setComputedLayoutH type h s._tempDimAddr index
  let dimension2 := s._tempDimAddr
  let lastLayoutManager :=
    match s._lastLayoutManager with
    | some m => some (m.setMaxBounds (h1 dimension2))
    | none => none
  (decide ((h1 dimension1).height ≠ (h1 dimension2).height) ||
      decide ((h1 dimension1).width ≠ (h1 dimension2).width),
    h1, lastLayoutManager)

/-- `GridLayoutProvider.checkDimensionDiscrepancy`, inherited from the base
class, embedded with the same call-depth fuel as
`GridLayoutProvider.setComputedLayoutFuel`: the recomputation step is the
inherited `setComputedLayout`, which on a grid provider re-enters itself; the
rest of the base body runs only if that step completes. -/
def GridLayoutProvider.checkDimensionDiscrepancyFuel {σ : Type}
    (_p : GridLayoutProvider σ) (fuel : Nat) (s : LayoutProviderState)
    (dimension : Dimension) (type : LayoutType) (index : Rat) :
    Option (Bool × LayoutProviderState) :=
  match GridLayoutProvider.setComputedLayoutFuel fuel type s._tempDim index with
  | none => none
  | some dimension2 =>
      some (decide (dimension.height ≠ dimension2.height) ||
          decide (dimension.width ≠ dimension2.width),
        { _tempDim := dimension2,
          _lastLayoutManager := s._lastLayoutManager.map (·.setMaxBounds dimension2) })

/-- Example provider: the injected dimension-compute callback always writes
`{height: 1, width: 1}`, ignoring the buffer content — deterministic and
buffer-independent. -/
def constOneProvider : LayoutProvider :=
  { _getLayoutTypeForIndex := fun _ => LayoutType.str "row",
    _setLayoutForType := fun _ _ _ => { height := 1, width := 1 } }

/-- Example provider: the injected dimension-compute callback writes only the
`height` field of the buffer it is handed, leaving `width` untouched. -/
def heightOnlyProvider : LayoutProvider :=
  { _getLayoutTypeForIndex := fun _ => LayoutType.str "row",
    _setLayoutForType := fun _ d _ => { d with height := 100 } }

/-- Example grid provider over environment `Rat`: the max-span source reads the
current environment value directly. -/
def gridProviderEx : GridLayoutProvider Rat :=
  { _getLayoutTypeForIndex := fun _ => LayoutType.str "cell",
    _setHeightForIndex := fun h _ => h,
    _getColumnSpanForIndex := fun _ => 2,
    _setMaxColumnSpan := fun e => e }

/-- Helper: the fuel-indexed grid `setComputedLayout` consumes any amount of
fuel without producing a result. -/
theorem GridLayoutProvider.setComputedLayoutFuel_none :
    ∀ (fuel : Nat) (type : LayoutType) (dimension : Dimension) (index : Rat),
      GridLayoutProvider.setComputedLayoutFuel fuel type dimension index = none := by
  intro fuel
  induction fuel with
  | zero => intro t d i; rfl
  | succ n ih => intro t d i; exact ih t d i

/-- C1: the claim says that on a `GridLayoutProvider` every
`setComputedLayout` and `checkDimensionDiscrepancy` call terminates with the
base discrepancy-check behavior. In the code the base slot holds the closure
`(type, dim, index) => this.setComputedLayout(type, dim, index)` while
`setComputedLayout` is not overridden and invokes that very closure, so both
calls recurse forever: for every call depth `fuel`, neither produces a
result. -/
theorem grid_setComputedLayout_and_check_diverge :
    ∀ (fuel : Nat) (type : LayoutType) (dimension : Dimension) (index : Rat),
      GridLayoutProvider.setComputedLayoutFuel fuel type dimension index = none ∧
      ∀ (σ : Type) (p : GridLayoutProvider σ) (s : LayoutProviderState),
        p.checkDimensionDiscrepancyFuel fuel s dimension type index = none := by
  intro fuel t d i
  refine ⟨GridLayoutProvider.setComputedLayoutFuel_none fuel t d i, ?_⟩
  intro σ p s
  unfold GridLayoutProvider.checkDimensionDiscrepancyFuel
  rw [GridLayoutProvider.setComputedLayoutFuel_none]

/-- C2: `GridLayoutProvider.newLayoutManager` invoked with
`isHorizontal = true` returns, for every render window, environment, provider
state and (possibly absent) cached layouts, exactly the synchronous
`CustomError` with category `"NotSupportedException"` and the human-readable
message — no manager is produced, and the mutable provider state (including
the last-created-manager reference) is returned unchanged. -/
theorem grid_newLayoutManager_horizontal_raises (σ : Type)
    (p : GridLayoutProvider σ) (env : σ) (s : LayoutProviderState)
    (renderWindowSize : Dimension) (cachedLayouts : Option (List Layout)) :
    p.newLayoutManager env s renderWindowSize (some true) cachedLayouts =
      (Except.error
        { message := "Horizontal support not available for Grid Layouts",
          type := "NotSupportedException" }, s) := rfl

/-- C3: `checkDimensionDiscrepancy` returns `true` iff the supplied dimension
and the freshly recomputed one (the injected compute callback applied to the
scratch buffer for this type and index) differ in height or differ in width,
by exact equality. -/
theorem checkDimensionDiscrepancy_iff_mismatch (p : LayoutProvider)
    (s : LayoutProviderState) (dimension : Dimension) (type : LayoutType)
    (index : Rat) :
    (p.checkDimensionDiscrepancy s dimension type index).1 = true ↔
      (dimension.height ≠ (p.setComputedLayout type s._tempDim index).height ∨
        dimension.width ≠ (p.setComputedLayout type s._tempDim index).width) := by
  simp [LayoutProvider.checkDimensionDiscrepancy]

/-- C4: on every invocation of `checkDimensionDiscrepancy`, whatever the
boolean outcome, the freshly recomputed dimension is propagated via
`setMaxBounds` to the last-created manager when that reference is present,
and when it is absent no propagation happens while the call still completes
and returns the comparison result. -/
theorem checkDimensionDiscrepancy_propagates_bounds (p : LayoutProvider)
    (s : LayoutProviderState) (dimension : Dimension) (type : LayoutType)
    (index : Rat) :
    ((p.checkDimensionDiscrepancy s dimension type index).2)._lastLayoutManager =
      Option.map (fun m => m.setMaxBounds (p.setComputedLayout type s._tempDim index))
        s._lastLayoutManager ∧
    (p.checkDimensionDiscrepancy s dimension type index).1 =
      (decide (dimension.height ≠ (p.setComputedLayout type s._tempDim index).height) ||
        decide (dimension.width ≠ (p.setComputedLayout type s._tempDim index).width)) := by
  constructor
  · cases h : s._lastLayoutManager <;>
      simp [LayoutProvider.checkDimensionDiscrepancy, h]
  · rfl

/-- C5: in the heap model of the JavaScript object references,
`checkDimensionDiscrepancy` writes only the provider's scratch buffer cell:
every cell other than `_tempDim`'s is untouched, and in particular the
caller-supplied `dimension` object (a distinct cell, since `_tempDim` is
freshly allocated by the constructor) has the same content before and after
the call. -/
theorem checkDimensionDiscrepancyH_preserves_caller (p : LayoutProvider)
    (s : LayoutProviderStateH) (h : DimHeap) (dimension : Nat)
    (type : LayoutType) (index : Rat) (hsep : dimension ≠ s._tempDimAddr) :
    (∀ a : Nat, a ≠ s._tempDimAddr →
      (p.checkDimensionDiscrepancyH s h dimension type index).2.1 a = h a) ∧
    (p.checkDimensionDiscrepancyH s h dimension type index).2.1 dimension =
      h dimension := by
  constructor
  · intro a ha
    simp [LayoutProvider.checkDimensionDiscrepancyH,
      LayoutProvider.setComputedLayoutH, DimHeap.write, ha]
  · simp [LayoutProvider.checkDimensionDiscrepancyH,
      LayoutProvider.setComputedLayoutH, DimHeap.write, hsep]

/-- C5 witness: concrete heap with the scratch buffer at address 0 and the
caller's dimension at address 1; the caller's cell is unchanged. -/
theorem checkDimensionDiscrepancyH_preserves_caller_witness :
    (constOneProvider.checkDimensionDiscrepancyH
        { _tempDimAddr := 0, _lastLayoutManager := none }
        (fun _ => { height := 0, width := 0 }) 1 (LayoutType.str "row") 0).2.1 1 =
      { height := 0, width := 0 } :=
  (checkDimensionDiscrepancyH_preserves_caller constOneProvider
      { _tempDimAddr := 0, _lastLayoutManager := none }
      (fun _ => { height := 0, width := 0 }) 1 (LayoutType.str "row") 0
      (by decide)).2

/-- C6: `GridLayoutProvider.newLayoutManager` with `isHorizontal` false or
absent returns a grid layout manager whose max-column-span is the max-span
source evaluated on the environment current at the call; an environment whose
max-span value differs from the call-time one yields a value the constructed
manager does not carry — the manager's span capacity is fixed at
construction. The provider state is returned unchanged. -/
theorem grid_newLayoutManager_vertical_ok (σ : Type) (p : GridLayoutProvider σ)
    (env : σ) (s : LayoutProviderState) (renderWindowSize : Dimension)
    (isHorizontal : Option Bool) (cachedLayouts : Option (List Layout))
    (hhz : isHorizontal ≠ some true) :
    ∃ m : GridLayoutManager,
      p.newLayoutManager env s renderWindowSize isHorizontal cachedLayouts =
        (Except.ok (LayoutManager.grid m), s) ∧
      m.maxColumnSpan = p._setMaxColumnSpan env ∧
      ∀ env2 : σ, p._setMaxColumnSpan env2 ≠ p._setMaxColumnSpan env →
        m.maxColumnSpan ≠ p._setMaxColumnSpan env2 := by
  cases isHorizontal with
  | none => exact ⟨_, rfl, rfl, fun env2 hne hc => hne (hc.symm)⟩
  | some b =>
    cases b with
    | false => exact ⟨_, rfl, rfl, fun env2 hne hc => hne (hc.symm)⟩
    | true => exact absurd rfl hhz

/-- C6 witness: concrete grid provider whose max-span source reads the
environment; built at environment value 4, the manager carries span 4 and a
later environment value yielding a different span does not affect it. -/
theorem grid_newLayoutManager_vertical_ok_witness :
    ∃ m : GridLayoutManager,
      gridProviderEx.newLayoutManager 4 LayoutProvider.initialState
          { height := 600, width := 320 } (some false) none =
        (Except.ok (LayoutManager.grid m), LayoutProvider.initialState) ∧
      m.maxColumnSpan = gridProviderEx._setMaxColumnSpan 4 ∧
      ∀ env2 : Rat,
        gridProviderEx._setMaxColumnSpan env2 ≠ gridProviderEx._setMaxColumnSpan 4 →
        m.maxColumnSpan ≠ gridProviderEx._setMaxColumnSpan env2 :=
  grid_newLayoutManager_vertical_ok Rat gridProviderEx 4 LayoutProvider.initialState
    { height := 600, width := 320 } (some false) none (by decide)

/-- C7 counterexample: the claim asserts that `checkDimensionDiscrepancy`
returns `false` for every `(type, dimension, index)` whenever the injected
compute callback is deterministic and buffer-independent. `constOneProvider`'s
callback always writes `{height: 1, width: 1}` (same output on different
buffer contents, shown at two probes), yet the check on the supplied
dimension `{height: 2, width: 1}` returns `true`. -/
theorem checkDimensionDiscrepancy_det_false_cex :
    constOneProvider._setLayoutForType (LayoutType.str "row")
        { height := 2, width := 1 } 0 =
      constOneProvider._setLayoutForType (LayoutType.str "row")
        { height := 7, width := 9 } 5 ∧
    (constOneProvider.checkDimensionDiscrepancy LayoutProvider.initialState
        { height := 2, width := 1 } (LayoutType.str "row") 0).1 = true := by
  constructor
  · rfl
  · decide

/-- C7 (amended): when the injected compute callback is buffer-independent for
the given type and index AND the supplied dimension equals the value that
callback produces there, `checkDimensionDiscrepancy` returns `false`, and
every repeated call from any number of preceding identical calls still
returns `false`. -/
theorem checkDimensionDiscrepancy_det_fixed_false (p : LayoutProvider)
    (dimension : Dimension) (type : LayoutType) (index : Rat)
    (hdet : ∀ d : Dimension,
      p._setLayoutForType type d index = p._setLayoutForType type dimension index)
    (hfix : p._setLayoutForType type dimension index = dimension) :
    ∀ (n : Nat) (s : LayoutProviderState),
      (p.checkDimensionDiscrepancy
          ((fun st => (p.checkDimensionDiscrepancy st dimension type index).2)^[n] s)
          dimension type index).1 = false := by
  intro n s
  simp [LayoutProvider.checkDimensionDiscrepancy, LayoutProvider.setComputedLayout,
    hdet, hfix]

/-- C7 amended witness: constant compute callback producing
`{height: 1, width: 1}` with that very dimension supplied — after two
preceding calls the third still returns `false`. -/
theorem checkDimensionDiscrepancy_det_fixed_false_witness :
    (constOneProvider.checkDimensionDiscrepancy
        ((fun st => (constOneProvider.checkDimensionDiscrepancy st
            { height := 1, width := 1 } (LayoutType.str "row") 0).2)^[2]
          LayoutProvider.initialState)
        { height := 1, width := 1 } (LayoutType.str "row") 0).1 = false :=
  checkDimensionDiscrepancy_det_fixed_false constOneProvider
    { height := 1, width := 1 } (LayoutType.str "row") 0
    (fun _ => rfl) rfl 2 LayoutProvider.initialState

/-- C8: the three grid accessors are direct pass-throughs to the injected
callbacks — each returns exactly the callback's value on its input, with no
caching, transformation or validation. -/
theorem grid_passthroughs (σ : Type) (p : GridLayoutProvider σ) (env : σ)
    (height index : Rat) :
    p.setMaxColumnSpan env = p._setMaxColumnSpan env ∧
    p.getColumnSpanForIndex index = p._getColumnSpanForIndex index ∧
    p.setHeightForIndex height index = p._setHeightForIndex height index :=
  ⟨rfl, rfl, rfl⟩

/-- C9: `getLayoutTypeForIndex` returns exactly the injected classifier's
value on the index, so under a fixed configuration two calls with the same
index return the identical type token. -/
theorem getLayoutTypeForIndex_delegates (p : LayoutProvider) (index : Rat) :
    p.getLayoutTypeForIndex index = p._getLayoutTypeForIndex index ∧
    p.getLayoutTypeForIndex index = p.getLayoutTypeForIndex index :=
  ⟨rfl, rfl⟩

/-- C10: the scratch buffer starts as `{height: 0, width: 0}` at construction
and is never reset between checks; when the injected callback writes only the
`height` field (leaves `width` as it found it), the width comparison of a
check reads whatever width the scratch buffer carried before the call — the
previous check's value, or 0 on the first check — and the post-state keeps
that width. -/
theorem tempDim_init_and_partial_write (p : LayoutProvider)
    (s : LayoutProviderState) (dimension : Dimension) (type : LayoutType)
    (index : Rat)
    (hW : ∀ (t : LayoutType) (d : Dimension) (i : Rat),
      (p._setLayoutForType t d i).width = d.width) :
    LayoutProvider.initialState._tempDim = { height := 0, width := 0 } ∧
    (p.checkDimensionDiscrepancy s dimension type index).1 =
      (decide (dimension.height ≠ (p._setLayoutForType type s._tempDim index).height) ||
        decide (dimension.width ≠ s._tempDim.width)) ∧
    ((p.checkDimensionDiscrepancy s dimension type index).2)._tempDim.width =
      s._tempDim.width := by
  refine ⟨rfl, ?_, ?_⟩
  · simp [LayoutProvider.checkDimensionDiscrepancy, LayoutProvider.setComputedLayout, hW]
  · simp [LayoutProvider.checkDimensionDiscrepancy, LayoutProvider.setComputedLayout, hW]

/-- C10 witness: height-only callback on the freshly constructed provider —
the first check compares the supplied width against the initial scratch width
0, and the scratch width stays 0 afterwards. -/
theorem tempDim_init_and_partial_write_witness :
    LayoutProvider.initialState._tempDim = { height := 0, width := 0 } ∧
    (heightOnlyProvider.checkDimensionDiscrepancy LayoutProvider.initialState
        { height := 100, width := 55 } (LayoutType.str "row") 0).1 =
      (decide ((100 : Rat) ≠
          (heightOnlyProvider._setLayoutForType (LayoutType.str "row")
            LayoutProvider.initialState._tempDim 0).height) ||
        decide ((55 : Rat) ≠ LayoutProvider.initialState._tempDim.width)) ∧
    ((heightOnlyProvider.checkDimensionDiscrepancy LayoutProvider.initialState
        { height := 100, width := 55 } (LayoutType.str "row") 0).2)._tempDim.width =
      LayoutProvider.initialState._tempDim.width :=
  tempDim_init_and_partial_write heightOnlyProvider LayoutProvider.initialState
    { height := 100, width := 55 } (LayoutType.str "row") 0
    (fun _ _ _ => rfl)
